import Mathlib

/-!
Shallow embedding of the Spend-Smart transaction ingestion pipeline
(`gemini_client.py`, `main.py`, `sheets_client.py`, `database.py`) and
verification of the claims of the specification about it.

Python dictionaries flowing through the pipeline are modelled as
association lists over a small JSON-like value type; Python floats are
modelled as rationals; the external collaborators (Gemini classifier,
Google Sheets API) are modelled as explicit oracles / outcome parameters.
-/

namespace SpendSmart

/-- A JSON-like value, as carried by the transaction dictionaries that flow
through the pipeline.  `Val.nil` models Python `None`. -/
inductive Val where
  | str (s : String)
  | num (q : ℚ)
  | bool (b : Bool)
  | nil
deriving DecidableEq

/-- A Python dict, modelled as an association list.  Lookup returns the
first binding of a key (dicts built by the program never repeat keys). -/
abbrev Dict := List (String × Val)

/-- Dict lookup `d.get(k)` / `d[k]`, returning `none` for a missing key. -/
def Dict.get? (d : Dict) (k : String) : Option Val :=
  (d.find? (fun p => p.1 == k)).map (·.2)

/-- Python `{**a, **b}`: the keys of `a` in their original positions with
values overridden by `b` where `b` also binds them, followed by the
bindings of `b` whose keys do not occur in `a`. -/
def Dict.mergeRight (a b : Dict) : Dict :=
  a.map (fun p => (p.1, (Dict.get? b p.1).getD p.2)) ++
    b.filter (fun p => (Dict.get? a p.1).isNone)

theorem Dict.find?_filter_absent (a b : Dict) (k : String)
    (ha : Dict.get? a k = none) :
    (b.filter (fun p => (Dict.get? a p.1).isNone)).find? (fun p => p.1 == k) =
      b.find? (fun p => p.1 == k) := by
  induction b with
  | nil => rfl
  | cons q b ih =>
      by_cases hqk : (q.1 == k) = true
      · have hq : q.1 = k := eq_of_beq hqk
        have hnone : (Dict.get? a q.1).isNone = true := by
          rw [hq, ha]; rfl
        simp [List.filter_cons, hnone, List.find?_cons, hqk]
      · cases hfa : (Dict.get? a q.1).isNone with
        | true => simp [List.filter_cons, hfa, List.find?_cons, hqk, ih]
        | false => simp [List.filter_cons, hfa, List.find?_cons, hqk, ih]

theorem Dict.find?_mergeRight (a b : Dict) (k : String) :
    (Dict.mergeRight a b).find? (fun p => p.1 == k) =
      match a.find? (fun p => p.1 == k) with
      | some pa => some (pa.1, (Dict.get? b pa.1).getD pa.2)
      | none => b.find? (fun p => p.1 == k) := by
  unfold Dict.mergeRight
  rw [List.find?_append, List.find?_map]
  have hcomp : ((fun p : String × Val => p.1 == k) ∘ fun p : String × Val =>
      (p.1, (Dict.get? b p.1).getD p.2)) = (fun p : String × Val => p.1 == k) := by
    funext p
    rfl
  rw [hcomp]
  cases ha : a.find? (fun p => p.1 == k) with
  | some pa => rfl
  | none =>
      have hget : Dict.get? a k = none := by
        unfold Dict.get?
        rw [ha]
        rfl
      simpa using Dict.find?_filter_absent a b k hget

/-- Lookup in a right-biased merge: `b` wins on common keys. -/
theorem Dict.get?_mergeRight (a b : Dict) (k : String) :
    Dict.get? (Dict.mergeRight a b) k = (Dict.get? b k).or (Dict.get? a k) := by
  unfold Dict.get?
  rw [Dict.find?_mergeRight]
  cases ha : a.find? (fun p => p.1 == k) with
  | some pa =>
      have hpk := List.find?_some ha
      have hk : pa.1 = k := eq_of_beq hpk
      subst hk
      cases hb : (b.find? (fun p => p.1 == pa.1)).map (·.2) with
      | some vb =>
          simp only [Option.map_some]
          simp [Dict.get?, hb]
      | none =>
          simp only [Option.map_some]
          simp [Dict.get?, hb]
  | none => cases b.find? (fun p => p.1 == k) <;> rfl

/-! ## Categorization service (`gemini_client.py`) -/

/-- The fixed 13-entry spending-category enumeration (`GeminiClient.CATEGORIES`). -/
def CATEGORIES : List String :=
  ["Food & Dining",
   "Shopping",
   "Transportation",
   "Bills & Utilities",
   "Entertainment",
   "Healthcare",
   "Travel",
   "Education",
   "Personal Care",
   "Home & Garden",
   "Gifts & Donations",
   "Business Expenses",
   "Other"]

/-- Python lower-casing (`str.lower`), as a character list (the categories are ASCII). -/
def pyLower (s : String) : List Char :=
  s.data.map Char.toLower

/-- Python substring test (`a in b`). -/
def substrOf (a b : List Char) : Bool :=
  (List.range (b.length + 1)).any (fun i => a.isPrefixOf (b.drop i))

/-- Model of `GeminiClient._find_closest_category`: first category (in list order)
that contains the lower-cased candidate as a substring or is contained in
it; `none` when no category matches. -/
def find_closest_category (category : String) : Option String :=
  CATEGORIES.find? (fun cat =>
    substrOf (pyLower category) (pyLower cat) || substrOf (pyLower cat) (pyLower category))

/-- The validation step of `categorize_transaction` (lines 105-108): keep an
exact member of `CATEGORIES`, otherwise normalize via
`_find_closest_category`, defaulting to `"Other"`. -/
def normalize_primary (raw : String) : String :=
  if raw ∈ CATEGORIES then raw
  else (find_closest_category raw).getD "Other"

/-- The confidence field of a parsed classifier response: a value that the
Python conversion `float(x)` accepts (kept as the converted rational), or
one on which it raises. -/
inductive ConfVal where
  | num (q : ℚ)
  | nonNumeric
deriving DecidableEq

/-- Model of the conversion `float(result.get("confidence", 0.5))`: the
value `none` models the raised `ValueError`/`TypeError`, which the
surrounding `except` turns into the fallback result. -/
def pyFloat : Option ConfVal → Option ℚ
  | Option.none => some (1 / 2)
  | some (ConfVal.num q) => some q
  | some ConfVal.nonNumeric => Option.none

/-- The fields of the JSON object extracted from a classifier response
(either by direct `json.loads` or by the regex fallback). A missing key is
`none`; string-valued keys are the only case in which the success path
completes (a non-string `primary_category` makes `_find_closest_category`
raise, which the `except` of the caller maps to the same fallback as
`error`). -/
structure ParsedResponse where
  primary_category : Option String
  subcategory : Option String
  confidence : Option ConfVal
deriving DecidableEq

/-- Outcome of one classifier round-trip as seen by
`categorize_transaction`: the API call raised or neither parse produced a
JSON object (`error`), or a JSON object was extracted (`parsed`). -/
inductive ClassifierOutcome where
  | error
  | parsed (r : ParsedResponse)
deriving DecidableEq

/-- A categorization result: the dict
`{primary_category, subcategory, confidence}` returned by
`categorize_transaction`. -/
structure CatResult where
  primary_category : String
  subcategory : String
  confidence : ℚ
deriving DecidableEq

/-- The fallback result returned on any error (lines 119-123). -/
def FALLBACK : CatResult :=
  { primary_category := "Other", subcategory := "Uncategorized", confidence := 0 }

/-- Model of `GeminiClient.categorize_transaction`, with the classifier round-trip
abstracted into `oracle`.  Never fails: every error path yields
`FALLBACK`. -/
def categorize_transaction (oracle : Dict → ClassifierOutcome) (tx : Dict) : CatResult :=
  match oracle tx with
  | ClassifierOutcome.error => FALLBACK
  | ClassifierOutcome.parsed r =>
      match pyFloat r.confidence with
      | Option.none => FALLBACK
      | some conf =>
          { primary_category := normalize_primary (r.primary_category.getD "Other"),
            subcategory := r.subcategory.getD "",
            confidence := conf }

/-- The categorization dict built by the success/fallback `return` of
`categorize_transaction`, in Python key-insertion order. -/
def catDict (c : CatResult) : Dict :=
  [("primary_category", Val.str c.primary_category),
   ("subcategory", Val.str c.subcategory),
   ("confidence", Val.num c.confidence)]

/-- Model of `GeminiClient.categorize_batch`: per-transaction categorization merged
over the input dict, `{**transaction, **categorization}`. -/
def categorize_batch (oracle : Dict → ClassifierOutcome) (transactions : List Dict) :
    List Dict :=
  transactions.map (fun tx => Dict.mergeRight tx (catDict (categorize_transaction oracle tx)))

theorem normalize_primary_mem (raw : String) : normalize_primary raw ∈ CATEGORIES := by
  unfold normalize_primary
  by_cases h : raw ∈ CATEGORIES
  · simp [h]
  · simp only [h, if_false]
    cases hf : find_closest_category raw with
    | some c =>
        have : c ∈ CATEGORIES := List.mem_of_find?_eq_some hf
        simpa [hf]
    | none => simp [hf, CATEGORIES]

theorem categorize_primary_mem (oracle : Dict → ClassifierOutcome) (tx : Dict) :
    (categorize_transaction oracle tx).primary_category ∈ CATEGORIES := by
  unfold categorize_transaction
  split
  · simp [FALLBACK, CATEGORIES]
  · split
    · simp [FALLBACK, CATEGORIES]
    · exact normalize_primary_mem _

/-! ## Transaction store rows (`database.py` / `main.py` step 4) -/

/-- Python `str(v)` as used by the composite `category` display string.  The
rendering of non-string values is abstract (no claim depends on it). -/
def pyStr : Val → String
  | Val.str s => s
  | Val.num q => toString q
  | Val.bool b => if b then "True" else "False"
  | Val.nil => "None"

/-- A row of the `transactions` table as constructed by the pipeline
(`Transaction(...)` in `main.py` lines 116-130).  Fields keep the duck-typed
values the dict carried. -/
structure StoredTx where
  transaction_id : Val
  account_id : Val
  amount : Val
  date : Val
  name : Val
  merchant_name : Option Val
  description : Option Val
  is_pending : Val
  category : String
  primary_category : Val
  subcategory : Val
  category_confidence : Val
  synced_to_sheets : Bool
deriving DecidableEq

/-- The per-row `Transaction(...)` construction inside the step-4 `try`.
The subscripts for transaction_id, account_id, amount, date and name
raise `KeyError` when absent (modelled as `none`, which the
surrounding `except` catches and logs); all remaining fields use `.get`
with defaults and cannot raise. -/
def buildRow (tx : Dict) : Option StoredTx := do
  let tid ← Dict.get? tx "transaction_id"
  let aid ← Dict.get? tx "account_id"
  let amt ← Dict.get? tx "amount"
  let dt ← Dict.get? tx "date"
  let nm ← Dict.get? tx "name"
  some
    { transaction_id := tid,
      account_id := aid,
      amount := amt,
      date := dt,
      name := nm,
      merchant_name := Dict.get? tx "merchant_name",
      description := Dict.get? tx "description",
      is_pending := (Dict.get? tx "is_pending").getD (Val.bool false),
      category := pyStr ((Dict.get? tx "primary_category").getD (Val.str "Other")) ++ " - " ++
        pyStr ((Dict.get? tx "subcategory").getD (Val.str "")),
      primary_category := (Dict.get? tx "primary_category").getD (Val.str "Other"),
      subcategory := (Dict.get? tx "subcategory").getD (Val.str ""),
      category_confidence := (Dict.get? tx "confidence").getD (Val.num 0),
      synced_to_sheets := false }

/-! ## Sync mirror (`sheets_client.py`) -/

/-- The per-transaction row written to the sheet by `sync_transactions`
(`sheets_client.py` lines 120-132): date, name, merchant, amount, primary
category, subcategory, description, confidence, transaction id. -/
structure SheetRow where
  date : Val
  name : Val
  merchant_name : Option Val
  amount : Val
  primary_category : Val
  subcategory : Val
  description : Option Val
  category_confidence : Val
  transaction_id : Val
deriving DecidableEq

/-- The dict `main.py` builds for one unsynced row (lines 152-163), i.e. the
data `sync_transactions` writes for that row. -/
def sheetRow (r : StoredTx) : SheetRow :=
  { date := r.date,
    name := r.name,
    merchant_name := r.merchant_name,
    amount := r.amount,
    primary_category := r.primary_category,
    subcategory := r.subcategory,
    description := r.description,
    category_confidence := r.category_confidence,
    transaction_id := r.transaction_id }

/-- Outcome of `SheetsClient.sync_transactions`:
`skipped` — no spreadsheet id configured, the method logs a warning and
returns **without pushing anything**; `pushed rows` — the clear-then-write
round-trip succeeded and transmitted `rows`; `failed` — an `HttpError` was
raised during the round-trip and re-raised to the caller. -/
inductive SyncOutcome where
  | skipped
  | pushed (rows : List SheetRow)
  | failed
deriving DecidableEq

/-- Model of `SheetsClient.sync_transactions`, with the Google Sheets round-trip
abstracted into `apiOk` and the configuration check into `configured`. -/
def sync_transactions (configured : Bool) (apiOk : Bool) (rows : List SheetRow) :
    SyncOutcome :=
  if !configured then SyncOutcome.skipped
  else if apiOk then SyncOutcome.pushed rows
  else SyncOutcome.failed

/-! ## Ingestion pipeline (`main.py`, `fetch_and_process_transactions`) -/

/-- Step 2: the fetched transactions whose `transaction_id` is not among
the stored ones.  (Python raises `KeyError` here when a fetched transaction
lacks the key; the pipeline only evaluates this filter on feeds that passed
the key check in `fetch_and_process_transactions`, where the `getD`
default is unreachable.) -/
def newTransactions (store0 : List StoredTx) (transactions : List Dict) : List Dict :=
  transactions.filter (fun tx =>
    !((store0.map (·.transaction_id)).contains ((Dict.get? tx "transaction_id").getD Val.nil)))

/-- Model of the lookup `tx.get("confidence", 0)` on a categorized dict (the value is always
`Val.num` there, so the non-numeric branch is unreachable in the
pipeline). -/
def getConfidence (d : Dict) : ℚ :=
  match Dict.get? d "confidence" with
  | some (Val.num q) => q
  | _ => 0

/-- The marking loop (`for tx in unsynced: tx.synced_to_sheets = True`) — sets the flag on every
currently-unsynced row, leaving already-synced rows as they are. -/
def markAllSynced (l : List StoredTx) : List StoredTx :=
  l.map (fun r => if r.synced_to_sheets then r else { r with synced_to_sheets := true })

/-- The statistics dict returned by a run.  The two `Option` fields model
dict keys that the short-circuit returns (`main.py` lines 64-69 and 90-95)
do not contain. -/
structure Stats where
  total_fetched : ℕ
  new_transactions : ℕ
  categorized : ℕ
  average_confidence : Option ℚ
  synced_to_sheets : ℕ
  categories_used : Option ℕ
deriving DecidableEq

/-- Observable outcome of one completed run: the returned statistics, the
final content of the store, and the snapshot transmitted to the mirror
(`none` when no successful push happened). -/
structure RunResult where
  stats : Stats
  store : List StoredTx
  pushedRows : Option (List SheetRow)
deriving DecidableEq

/-- Step 5 of `fetch_and_process_transactions` (lines 139-176): when sync is
enabled and something was categorized, query the unsynced rows; if there are
any, call `sync_transactions` on them; mark them synced and count them only
when that call returns (successfully or as a configured-off no-op); on a
raised error, catch it and leave everything unsynced.  Returns the store
after the step, the `synced_count`, and the transmitted snapshot (if any). -/
def syncStep (configured apiOk sync_to_sheets : Bool) (categorized : List Dict)
    (store1 : List StoredTx) : List StoredTx × ℕ × Option (List SheetRow) :=
  if sync_to_sheets && !categorized.isEmpty then
    if (store1.filter (fun r => !r.synced_to_sheets)).isEmpty then (store1, 0, none)
    else
      match sync_transactions configured apiOk
        ((store1.filter (fun r => !r.synced_to_sheets)).map sheetRow) with
      | SyncOutcome.failed => (store1, 0, none)
      | SyncOutcome.skipped =>
          (markAllSynced store1, (store1.filter (fun r => !r.synced_to_sheets)).length, none)
      | SyncOutcome.pushed rows =>
          (markAllSynced store1, (store1.filter (fun r => !r.synced_to_sheets)).length,
            some rows)
  else (store1, 0, none)

/-- The UNIQUE constraint on `transactions.transaction_id` (database.py
line 18), as checked when the INSERTs of step 4 actually execute at the
single `db.commit()` (main.py line 136; the session has `autoflush=False`,
so nothing hits the database before the commit): every inserted id must be
absent from the table and from the rows inserted earlier in the same
batch. -/
def insertsUnique (store0 : List StoredTx) (inserted : List StoredTx) : Prop :=
  (inserted.map (·.transaction_id)).Nodup ∧
    ∀ row ∈ inserted, row.transaction_id ∉ store0.map (·.transaction_id)

instance (store0 inserted : List StoredTx) : Decidable (insertsUnique store0 inserted) := by
  unfold insertsUnique
  infer_instance

/-- Model of `SpendSmart.fetch_and_process_transactions`.  The feed response and the
initial store content are explicit inputs; `oracle` abstracts the
classifier; `configured`/`apiOk` abstract the Sheets client.  `Except.error`
models the two uncaught in-pipeline exceptions: the `KeyError` raised by
the dedup filter when a fetched transaction lacks `transaction_id`, and the
`IntegrityError` raised by the step-4 `db.commit()` when the batch violates
the id-uniqueness constraint — both sit under a `try` that has only
`finally`, so they abort the run (a fetch-stage failure itself happens
before the scope modelled by this function).  All other failures are caught
inside the pipeline, as in the source. -/
def fetch_and_process_transactions (oracle : Dict → ClassifierOutcome)
    (configured apiOk : Bool) (store0 : List StoredTx)
    (transactions : List Dict) (sync_to_sheets : Bool) : Except Unit RunResult :=
  if transactions.isEmpty then
    -- Step 1 short-circuit: no transactions fetched
    Except.ok
      { stats := { total_fetched := 0, new_transactions := 0, categorized := 0,
                   average_confidence := none, synced_to_sheets := 0, categories_used := none },
        store := store0, pushedRows := none }
  else if _h : ∀ tx ∈ transactions, (Dict.get? tx "transaction_id").isSome then
    let new_transactions := newTransactions store0 transactions
    if new_transactions.isEmpty then
      -- Step 2 short-circuit: nothing new
      Except.ok
        { stats := { total_fetched := transactions.length, new_transactions := 0,
                     categorized := 0, average_confidence := none, synced_to_sheets := 0,
                     categories_used := none },
          store := store0, pushedRows := none }
    else
      -- Step 3: categorize and average the confidences
      let categorized := categorize_batch oracle new_transactions
      let avg : ℚ := (categorized.map getConfidence).sum / (categorized.length : ℚ)
      -- Step 4: per-row construction with per-row exception handling; the
      -- INSERTs themselves run at the single db.commit() (line 136), outside
      -- the per-row try: a unique-constraint violation on transaction_id
      -- there raises IntegrityError out of the function and nothing is stored
      let inserted := categorized.filterMap buildRow
      if _hu : insertsUnique store0 inserted then
        let store1 := store0 ++ inserted
        -- Step 5: sync to sheets
        let afterSync := syncStep configured apiOk sync_to_sheets categorized store1
        -- Step 6: statistics
        Except.ok
          { stats := { total_fetched := transactions.length,
                       new_transactions := new_transactions.length,
                       categorized := categorized.length,
                       average_confidence := some avg,
                       synced_to_sheets := afterSync.2.1,
                       categories_used := some ((categorized.map (fun d =>
                         (Dict.get? d "primary_category").getD (Val.str "Other"))).dedup.length) },
            store := afterSync.1, pushedRows := afterSync.2.2 }
      else
        Except.error ()
  else
    Except.error ()

/-! ## Evaluation lemmas for the three run paths -/

theorem run_empty_feed (oracle : Dict → ClassifierOutcome) (configured apiOk : Bool)
    (store0 : List StoredTx) (s : Bool) :
    fetch_and_process_transactions oracle configured apiOk store0 [] s =
      Except.ok
        { stats := { total_fetched := 0, new_transactions := 0, categorized := 0,
                     average_confidence := none, synced_to_sheets := 0, categories_used := none },
          store := store0, pushedRows := none } := rfl

theorem run_no_new (oracle : Dict → ClassifierOutcome) (configured apiOk : Bool)
    (store0 : List StoredTx) (transactions : List Dict) (s : Bool)
    (hne : transactions ≠ [])
    (hids : ∀ tx ∈ transactions, (Dict.get? tx "transaction_id").isSome)
    (hnew : newTransactions store0 transactions = []) :
    fetch_and_process_transactions oracle configured apiOk store0 transactions s =
      Except.ok
        { stats := { total_fetched := transactions.length, new_transactions := 0,
                     categorized := 0, average_confidence := none, synced_to_sheets := 0,
                     categories_used := none },
          store := store0, pushedRows := none } := by
  have h1 : transactions.isEmpty = false := by
    cases transactions with
    | nil => exact absurd rfl hne
    | cons a l => rfl
  simp only [fetch_and_process_transactions, h1, Bool.false_eq_true, if_false, hnew,
    List.isEmpty_nil, if_true, dif_pos hids]

theorem run_full (oracle : Dict → ClassifierOutcome) (configured apiOk : Bool)
    (store0 : List StoredTx) (transactions : List Dict) (s : Bool)
    (hids : ∀ tx ∈ transactions, (Dict.get? tx "transaction_id").isSome)
    (hnew : newTransactions store0 transactions ≠ [])
    (huniq : insertsUnique store0 ((categorize_batch oracle
      (newTransactions store0 transactions)).filterMap buildRow)) :
    fetch_and_process_transactions oracle configured apiOk store0 transactions s =
      Except.ok
        { stats := { total_fetched := transactions.length,
                     new_transactions := (newTransactions store0 transactions).length,
                     categorized := (categorize_batch oracle (newTransactions store0 transactions)).length,
                     average_confidence := some
                       (((categorize_batch oracle (newTransactions store0 transactions)).map
                           getConfidence).sum /
                         ((categorize_batch oracle (newTransactions store0 transactions)).length : ℚ)),
                     synced_to_sheets := (syncStep configured apiOk s
                       (categorize_batch oracle (newTransactions store0 transactions))
                       (store0 ++ (categorize_batch oracle
                         (newTransactions store0 transactions)).filterMap buildRow)).2.1,
                     categories_used := some
                       (((categorize_batch oracle (newTransactions store0 transactions)).map
                         (fun d => (Dict.get? d "primary_category").getD (Val.str "Other"))).dedup.length) },
          store := (syncStep configured apiOk s
            (categorize_batch oracle (newTransactions store0 transactions))
            (store0 ++ (categorize_batch oracle
              (newTransactions store0 transactions)).filterMap buildRow)).1,
          pushedRows := (syncStep configured apiOk s
            (categorize_batch oracle (newTransactions store0 transactions))
            (store0 ++ (categorize_batch oracle
              (newTransactions store0 transactions)).filterMap buildRow)).2.2 } := by
  have hne : transactions ≠ [] := by
    intro h
    apply hnew
    simp [h, newTransactions]
  have h1 : transactions.isEmpty = false := by
    cases transactions with
    | nil => exact absurd rfl hne
    | cons a l => rfl
  have h2 : (newTransactions store0 transactions).isEmpty = false := by
    cases h : newTransactions store0 transactions with
    | nil => exact absurd h hnew
    | cons a l => rfl
  simp only [fetch_and_process_transactions, h1, h2, Bool.false_eq_true, if_false,
    dif_pos hids, dif_pos huniq]

/-! ## Lemmas about categorized dicts and row construction -/

theorem get?_catDict_primary (c : CatResult) :
    Dict.get? (catDict c) "primary_category" = some (Val.str c.primary_category) := rfl

theorem get?_catDict_subcategory (c : CatResult) :
    Dict.get? (catDict c) "subcategory" = some (Val.str c.subcategory) := rfl

theorem get?_catDict_confidence (c : CatResult) :
    Dict.get? (catDict c) "confidence" = some (Val.num c.confidence) := rfl

theorem get?_catDict_other (c : CatResult) (k : String)
    (h1 : k ≠ "primary_category") (h2 : k ≠ "subcategory") (h3 : k ≠ "confidence") :
    Dict.get? (catDict c) k = none := by
  have b1 : ("primary_category" == k) = false := beq_eq_false_iff_ne.mpr (Ne.symm h1)
  have b2 : ("subcategory" == k) = false := beq_eq_false_iff_ne.mpr (Ne.symm h2)
  have b3 : ("confidence" == k) = false := beq_eq_false_iff_ne.mpr (Ne.symm h3)
  simp [catDict, Dict.get?, List.find?_cons, b1, b2, b3]

theorem get?_merge_catDict_primary (tx : Dict) (c : CatResult) :
    Dict.get? (Dict.mergeRight tx (catDict c)) "primary_category" =
      some (Val.str c.primary_category) := by
  rw [Dict.get?_mergeRight, get?_catDict_primary]
  rfl

theorem get?_merge_catDict_subcategory (tx : Dict) (c : CatResult) :
    Dict.get? (Dict.mergeRight tx (catDict c)) "subcategory" =
      some (Val.str c.subcategory) := by
  rw [Dict.get?_mergeRight, get?_catDict_subcategory]
  rfl

theorem get?_merge_catDict_confidence (tx : Dict) (c : CatResult) :
    Dict.get? (Dict.mergeRight tx (catDict c)) "confidence" =
      some (Val.num c.confidence) := by
  rw [Dict.get?_mergeRight, get?_catDict_confidence]
  rfl

theorem get?_merge_catDict_other (tx : Dict) (c : CatResult) (k : String)
    (h1 : k ≠ "primary_category") (h2 : k ≠ "subcategory") (h3 : k ≠ "confidence") :
    Dict.get? (Dict.mergeRight tx (catDict c)) k = Dict.get? tx k := by
  rw [Dict.get?_mergeRight, get?_catDict_other c k h1 h2 h3]
  cases Dict.get? tx k <;> rfl

theorem getConfidence_merge (tx : Dict) (c : CatResult) :
    getConfidence (Dict.mergeRight tx (catDict c)) = c.confidence := by
  unfold getConfidence
  rw [get?_merge_catDict_confidence]

/-- The keys whose absence makes the step-4 `Transaction(...)` construction
raise a `KeyError`. -/
def requiredKeys (tx : Dict) : Prop :=
  (Dict.get? tx "transaction_id").isSome ∧ (Dict.get? tx "account_id").isSome ∧
    (Dict.get? tx "amount").isSome ∧ (Dict.get? tx "date").isSome ∧
    (Dict.get? tx "name").isSome

instance (tx : Dict) : Decidable (requiredKeys tx) := by
  unfold requiredKeys
  infer_instance

theorem requiredKeys_merge (tx : Dict) (c : CatResult) (h : requiredKeys tx) :
    requiredKeys (Dict.mergeRight tx (catDict c)) := by
  obtain ⟨h1, h2, h3, h4, h5⟩ := h
  refine ⟨?_, ?_, ?_, ?_, ?_⟩ <;>
    rw [get?_merge_catDict_other _ _ _ (by decide) (by decide) (by decide)] <;>
    assumption

theorem buildRow_fields (tx : Dict) (row : StoredTx) (h : buildRow tx = some row) :
    Dict.get? tx "transaction_id" = some row.transaction_id ∧
      row.primary_category = (Dict.get? tx "primary_category").getD (Val.str "Other") ∧
      row.synced_to_sheets = false := by
  simp only [buildRow, bind, Option.bind_eq_some, Option.some.injEq] at h
  obtain ⟨v1, h1, v2, h2, v3, h3, v4, h4, v5, h5, hrow⟩ := h
  subst hrow
  exact ⟨h1, rfl, rfl⟩

theorem requiredKeys_of_buildRow (tx : Dict) (row : StoredTx)
    (h : buildRow tx = some row) : requiredKeys tx := by
  simp only [buildRow, bind, Option.bind_eq_some, Option.some.injEq] at h
  obtain ⟨v1, h1, v2, h2, v3, h3, v4, h4, v5, h5, hrow⟩ := h
  exact ⟨by simp [h1], by simp [h2], by simp [h3], by simp [h4], by simp [h5]⟩

theorem buildRow_none (tx : Dict) (h : ¬ requiredKeys tx) : buildRow tx = none := by
  cases hb : buildRow tx with
  | none => rfl
  | some row => exact absurd (requiredKeys_of_buildRow tx row hb) h

/-- Explicit value of a successful `Transaction(...)` construction. -/
theorem buildRow_eq (tx : Dict) (v1 v2 v3 v4 v5 : Val)
    (hv1 : Dict.get? tx "transaction_id" = some v1)
    (hv2 : Dict.get? tx "account_id" = some v2)
    (hv3 : Dict.get? tx "amount" = some v3)
    (hv4 : Dict.get? tx "date" = some v4)
    (hv5 : Dict.get? tx "name" = some v5) :
    buildRow tx = some
      { transaction_id := v1,
        account_id := v2,
        amount := v3,
        date := v4,
        name := v5,
        merchant_name := Dict.get? tx "merchant_name",
        description := Dict.get? tx "description",
        is_pending := (Dict.get? tx "is_pending").getD (Val.bool false),
        category := pyStr ((Dict.get? tx "primary_category").getD (Val.str "Other")) ++ " - " ++
          pyStr ((Dict.get? tx "subcategory").getD (Val.str "")),
        primary_category := (Dict.get? tx "primary_category").getD (Val.str "Other"),
        subcategory := (Dict.get? tx "subcategory").getD (Val.str ""),
        category_confidence := (Dict.get? tx "confidence").getD (Val.num 0),
        synced_to_sheets := false } := by
  simp [buildRow, hv1, hv2, hv3, hv4, hv5]

theorem buildRow_some_of_required (tx : Dict) (h : requiredKeys tx) :
    ∃ row, buildRow tx = some row ∧
      Dict.get? tx "transaction_id" = some row.transaction_id ∧
      row.primary_category = (Dict.get? tx "primary_category").getD (Val.str "Other") ∧
      row.synced_to_sheets = false := by
  obtain ⟨h1, h2, h3, h4, h5⟩ := h
  obtain ⟨v1, hv1⟩ := Option.isSome_iff_exists.mp h1
  obtain ⟨v2, hv2⟩ := Option.isSome_iff_exists.mp h2
  obtain ⟨v3, hv3⟩ := Option.isSome_iff_exists.mp h3
  obtain ⟨v4, hv4⟩ := Option.isSome_iff_exists.mp h4
  obtain ⟨v5, hv5⟩ := Option.isSome_iff_exists.mp h5
  exact ⟨_, buildRow_eq tx v1 v2 v3 v4 v5 hv1 hv2 hv3 hv4 hv5, hv1, rfl, rfl⟩

/-! ## Lemmas about the sync step and run paths -/

theorem markAllSynced_ids (l : List StoredTx) :
    (markAllSynced l).map (·.transaction_id) = l.map (·.transaction_id) := by
  unfold markAllSynced
  rw [List.map_map]
  apply List.map_congr_left
  intro r _
  by_cases h : r.synced_to_sheets <;> simp [h]

theorem markAllSynced_length (l : List StoredTx) :
    (markAllSynced l).length = l.length := by
  unfold markAllSynced
  exact List.length_map l _

theorem markAllSynced_primary (l : List StoredTx) (row : StoredTx)
    (h : row ∈ markAllSynced l) :
    ∃ r0 ∈ l, row.primary_category = r0.primary_category := by
  unfold markAllSynced at h
  obtain ⟨r0, hr0, hrow⟩ := List.mem_map.mp h
  refine ⟨r0, hr0, ?_⟩
  by_cases hs : r0.synced_to_sheets <;> simp [hs] at hrow <;> subst hrow <;> rfl

theorem syncStep_store (configured apiOk s : Bool) (categorized : List Dict)
    (store1 : List StoredTx) :
    (syncStep configured apiOk s categorized store1).1 = store1 ∨
      (syncStep configured apiOk s categorized store1).1 = markAllSynced store1 := by
  simp only [syncStep]
  split
  · split
    · exact Or.inl rfl
    · cases sync_transactions configured apiOk _ <;> simp
  · exact Or.inl rfl

theorem syncStep_store_ids (configured apiOk s : Bool) (categorized : List Dict)
    (store1 : List StoredTx) :
    ((syncStep configured apiOk s categorized store1).1).map (·.transaction_id) =
      store1.map (·.transaction_id) := by
  rcases syncStep_store configured apiOk s categorized store1 with h | h <;> rw [h]
  exact markAllSynced_ids store1

theorem syncStep_store_length (configured apiOk s : Bool) (categorized : List Dict)
    (store1 : List StoredTx) :
    ((syncStep configured apiOk s categorized store1).1).length = store1.length := by
  rcases syncStep_store configured apiOk s categorized store1 with h | h <;> rw [h]
  exact markAllSynced_length store1

theorem syncStep_sync_off (configured apiOk : Bool) (categorized : List Dict)
    (store1 : List StoredTx) :
    syncStep configured apiOk false categorized store1 = (store1, 0, none) := by
  unfold syncStep
  simp

theorem run_key_error (oracle : Dict → ClassifierOutcome) (configured apiOk : Bool)
    (store0 : List StoredTx) (transactions : List Dict) (s : Bool)
    (hne : transactions ≠ [])
    (hnid : ¬ ∀ tx ∈ transactions, (Dict.get? tx "transaction_id").isSome) :
    fetch_and_process_transactions oracle configured apiOk store0 transactions s =
      Except.error () := by
  have h1 : transactions.isEmpty = false := by
    cases transactions with
    | nil => exact absurd rfl hne
    | cons a l => rfl
  simp only [fetch_and_process_transactions, h1, Bool.false_eq_true, if_false, dif_neg hnid]

theorem run_commit_error (oracle : Dict → ClassifierOutcome) (configured apiOk : Bool)
    (store0 : List StoredTx) (transactions : List Dict) (s : Bool)
    (hids : ∀ tx ∈ transactions, (Dict.get? tx "transaction_id").isSome)
    (hnew : newTransactions store0 transactions ≠ [])
    (hnu : ¬ insertsUnique store0 ((categorize_batch oracle
      (newTransactions store0 transactions)).filterMap buildRow)) :
    fetch_and_process_transactions oracle configured apiOk store0 transactions s =
      Except.error () := by
  have hne : transactions ≠ [] := by
    intro h
    apply hnew
    simp [h, newTransactions]
  have h1 : transactions.isEmpty = false := by
    cases transactions with
    | nil => exact absurd rfl hne
    | cons a l => rfl
  have h2 : (newTransactions store0 transactions).isEmpty = false := by
    cases h : newTransactions store0 transactions with
    | nil => exact absurd h hnew
    | cons a l => rfl
  simp only [fetch_and_process_transactions, h1, h2, Bool.false_eq_true, if_false,
    dif_pos hids, dif_neg hnu]

theorem run_store_cases (oracle : Dict → ClassifierOutcome) (configured apiOk : Bool)
    (store0 : List StoredTx) (transactions : List Dict) (s : Bool) (r : RunResult)
    (h : fetch_and_process_transactions oracle configured apiOk store0 transactions s =
      Except.ok r) :
    r.store = store0 ∨
      r.store = store0 ++ (categorize_batch oracle
        (newTransactions store0 transactions)).filterMap buildRow ∨
      r.store = markAllSynced (store0 ++ (categorize_batch oracle
        (newTransactions store0 transactions)).filterMap buildRow) := by
  by_cases hemp : transactions = []
  · subst hemp
    rw [run_empty_feed] at h
    obtain rfl := (Except.ok.inj h).symm
    exact Or.inl rfl
  · by_cases hids : ∀ tx ∈ transactions, (Dict.get? tx "transaction_id").isSome
    · by_cases hnew : newTransactions store0 transactions = []
      · rw [run_no_new oracle configured apiOk store0 transactions s hemp hids hnew] at h
        obtain rfl := (Except.ok.inj h).symm
        exact Or.inl rfl
      · by_cases huniq : insertsUnique store0 ((categorize_batch oracle
            (newTransactions store0 transactions)).filterMap buildRow)
        · rw [run_full oracle configured apiOk store0 transactions s hids hnew huniq] at h
          obtain rfl := (Except.ok.inj h).symm
          rcases syncStep_store configured apiOk s
            (categorize_batch oracle (newTransactions store0 transactions))
            (store0 ++ (categorize_batch oracle
              (newTransactions store0 transactions)).filterMap buildRow) with hs | hs
          · exact Or.inr (Or.inl hs)
          · exact Or.inr (Or.inr hs)
        · rw [run_commit_error oracle configured apiOk store0 transactions s hids hnew
            huniq] at h
          exact absurd h (by simp)
    · rw [run_key_error oracle configured apiOk store0 transactions s hemp hids] at h
      exact absurd h (by simp)

theorem length_filterMap_all_some {α β : Type} (f : α → Option β) (l : List α)
    (h : ∀ x ∈ l, (f x).isSome) : (l.filterMap f).length = l.length := by
  induction l with
  | nil => rfl
  | cons a l ih =>
      obtain ⟨b, hb⟩ := Option.isSome_iff_exists.mp (h a (List.mem_cons_self a l))
      rw [List.filterMap_cons, hb, List.length_cons]
      rw [ih (fun x hx => h x (List.mem_cons_of_mem a hx))]
      simp

/-! ## Concrete example inputs used by witnesses and counterexamples -/

/-- A well-formed fetched transaction. -/
def txA : Dict :=
  [("transaction_id", Val.str "t1"), ("account_id", Val.str "acc"),
   ("amount", Val.num (-4)), ("date", Val.str "2024-01-02"), ("name", Val.str "Coffee")]

/-- A second well-formed fetched transaction. -/
def txB : Dict :=
  [("transaction_id", Val.str "t2"), ("account_id", Val.str "acc"),
   ("amount", Val.num (-30)), ("date", Val.str "2024-01-03"), ("name", Val.str "Bus")]

/-- A third well-formed fetched transaction (the example classifier errors on it). -/
def txC : Dict :=
  [("transaction_id", Val.str "t3"), ("account_id", Val.str "acc"),
   ("amount", Val.num (-9)), ("date", Val.str "2024-01-04"), ("name", Val.str "Pharmacy")]

/-- A fetched transaction lacking `account_id`: its step-4 row construction
raises `KeyError`. -/
def txNoAccount : Dict :=
  [("transaction_id", Val.str "t4"),
   ("amount", Val.num (-2)), ("date", Val.str "2024-01-05"), ("name", Val.str "Broken")]

/-- An example classifier: parses for `Coffee` and `Bus`, errors otherwise. -/
def exOracle : Dict → ClassifierOutcome := fun tx =>
  match Dict.get? tx "name" with
  | some (Val.str "Coffee") =>
      ClassifierOutcome.parsed
        { primary_category := some "Food & Dining", subcategory := some "Coffee Shops",
          confidence := some (ConfVal.num (9 / 10)) }
  | some (Val.str "Bus") =>
      ClassifierOutcome.parsed
        { primary_category := some "Transportation", subcategory := some "Public Transit",
          confidence := some (ConfVal.num (3 / 5)) }
  | _ => ClassifierOutcome.error

/-- A row persisted by an earlier run with a failed sync: still unsynced. -/
def priorRow : StoredTx :=
  { transaction_id := Val.str "t0", account_id := Val.str "acc", amount := Val.num (-7),
    date := Val.str "2023-12-30", name := Val.str "Old", merchant_name := none,
    description := none, is_pending := Val.bool false, category := "Other - ",
    primary_category := Val.str "Other", subcategory := Val.str "",
    category_confidence := Val.num 0, synced_to_sheets := false }

/-- A well-formed fetched transaction with the same `transaction_id` as
`txD2`. -/
def txD : Dict :=
  [("transaction_id", Val.str "t5"), ("account_id", Val.str "acc"),
   ("amount", Val.num (-3)), ("date", Val.str "2024-01-06"), ("name", Val.str "Dup One")]

/-- A second well-formed fetched transaction sharing the `transaction_id` of
`txD`: both pass dedup and both rows construct, so the second INSERT
violates the uniqueness constraint when the batch is committed. -/
def txD2 : Dict :=
  [("transaction_id", Val.str "t5"), ("account_id", Val.str "acc"),
   ("amount", Val.num (-8)), ("date", Val.str "2024-01-07"), ("name", Val.str "Dup Two")]

/-- A classifier whose parsed response reports a confidence above 1. -/
def overOracle : Dict → ClassifierOutcome := fun _ =>
  ClassifierOutcome.parsed
    { primary_category := some "Shopping", subcategory := some "General",
      confidence := some (ConfVal.num (3 / 2)) }

/-! ## Claims -/

/-- C1: `categorize_transaction` never raises to its caller: every
invocation yields a well-formed result (in particular its
`primary_category` is in the fixed enumeration), and when the classifier
call errors, no structured record can be extracted from its response, or
the extracted confidence cannot be converted to a float, the result is
exactly `{primary_category: "Other", subcategory: "Uncategorized",
confidence: 0.0}`. -/
theorem claim_fallback_guarantee (oracle : Dict → ClassifierOutcome) (tx : Dict) :
    (categorize_transaction oracle tx).primary_category ∈ CATEGORIES ∧
    (oracle tx = ClassifierOutcome.error → categorize_transaction oracle tx = FALLBACK) ∧
    (∀ r, oracle tx = ClassifierOutcome.parsed r → pyFloat r.confidence = none →
      categorize_transaction oracle tx = FALLBACK) := by
  refine ⟨categorize_primary_mem oracle tx, ?_, ?_⟩
  · intro h
    simp [categorize_transaction, h]
  · intro r hr hc
    simp [categorize_transaction, hr, hc]

theorem claim_fallback_guarantee_witness :
    categorize_transaction (fun _ => ClassifierOutcome.error) txA = FALLBACK :=
  (claim_fallback_guarantee (fun _ => ClassifierOutcome.error) txA).2.1 rfl

/-- C5 counterexample: the code does not clamp the parsed confidence, so a
classifier response reporting confidence `1.5` yields a categorization
result with confidence `3/2 > 1`, refuting `0.0 ≤ confidence ≤ 1.0`. -/
theorem claim_confidence_bound_cex :
    (categorize_transaction overOracle txA).confidence = 3 / 2 ∧
    ¬ ((categorize_transaction overOracle txA).confidence ≤ 1) := by
  have h : (categorize_transaction overOracle txA).confidence = 3 / 2 := rfl
  refine ⟨h, ?_⟩
  rw [h]
  norm_num

/-- C5 (amended): the fallback path yields confidence exactly `0.0`, and a
successful parse passes the classifier-reported value through unclamped
(`0.5` when the field is absent); the bound `0.0 ≤ confidence ≤ 1.0`
therefore holds exactly when the classifier-reported value lies in
`[0, 1]`. -/
theorem claim_confidence_passthrough (oracle : Dict → ClassifierOutcome) (tx : Dict) :
    (oracle tx = ClassifierOutcome.error →
      (categorize_transaction oracle tx).confidence = 0) ∧
    (∀ r q, oracle tx = ClassifierOutcome.parsed r → pyFloat r.confidence = some q →
      (categorize_transaction oracle tx).confidence = q) ∧
    (∀ r q, oracle tx = ClassifierOutcome.parsed r → pyFloat r.confidence = some q →
      0 ≤ q → q ≤ 1 →
      0 ≤ (categorize_transaction oracle tx).confidence ∧
        (categorize_transaction oracle tx).confidence ≤ 1) := by
  refine ⟨?_, ?_, ?_⟩
  · intro h
    simp [categorize_transaction, h, FALLBACK]
  · intro r q hr hq
    simp [categorize_transaction, hr, hq]
  · intro r q hr hq h0 h1
    constructor <;> simp [categorize_transaction, hr, hq] <;> assumption

theorem claim_confidence_passthrough_witness :
    (categorize_transaction exOracle txA).confidence = 9 / 10 ∧
    0 ≤ (categorize_transaction exOracle txA).confidence ∧
    (categorize_transaction exOracle txA).confidence ≤ 1 := by
  have h := claim_confidence_passthrough exOracle txA
  exact ⟨h.2.1 _ (9 / 10) rfl rfl,
    h.2.2 _ (9 / 10) rfl rfl (by norm_num) (by norm_num)⟩

/-- C3: the `primary_category` of every categorization result is a member of the
13-entry enumeration; a raw value outside the enumeration is normalized by
the first case-insensitive bidirectional substring match in list order,
falling back to `"Other"` when no entry matches; consequently a store whose
rows all carry enumerated primary categories still does after any completed
run. -/
theorem claim_category_closure :
    (∀ oracle tx, (categorize_transaction oracle tx).primary_category ∈ CATEGORIES) ∧
    (∀ raw, raw ∉ CATEGORIES →
      normalize_primary raw = (find_closest_category raw).getD "Other") ∧
    (∀ raw, raw ∉ CATEGORIES → find_closest_category raw = none →
      normalize_primary raw = "Other") ∧
    (∀ oracle configured apiOk store0 transactions s r,
      (∀ row ∈ store0, ∃ c ∈ CATEGORIES, row.primary_category = Val.str c) →
      fetch_and_process_transactions oracle configured apiOk store0 transactions s =
        Except.ok r →
      ∀ row ∈ r.store, ∃ c ∈ CATEGORIES, row.primary_category = Val.str c) := by
  refine ⟨categorize_primary_mem, ?_, ?_, ?_⟩
  · intro raw hraw
    simp [normalize_primary, hraw]
  · intro raw hraw hnone
    simp [normalize_primary, hraw, hnone]
  · intro oracle configured apiOk store0 transactions s r h0 hrun row hrow
    have hstore1 : ∀ row ∈ store0 ++ (categorize_batch oracle
        (newTransactions store0 transactions)).filterMap buildRow,
        ∃ c ∈ CATEGORIES, row.primary_category = Val.str c := by
      intro row hrow
      rcases List.mem_append.mp hrow with hl | hr
      · exact h0 row hl
      · obtain ⟨d, hd, hbuild⟩ := List.mem_filterMap.mp hr
        obtain ⟨tx, _htx, htxd⟩ := List.mem_map.mp hd
        obtain ⟨_, hp, _⟩ := buildRow_fields d row hbuild
        subst htxd
        rw [get?_merge_catDict_primary] at hp
        exact ⟨(categorize_transaction oracle tx).primary_category,
          categorize_primary_mem oracle tx, by simpa using hp⟩
    rcases run_store_cases oracle configured apiOk store0 transactions s r hrun
      with hs | hs | hs
    · exact h0 row (hs ▸ hrow)
    · exact hstore1 row (hs ▸ hrow)
    · rw [hs] at hrow
      obtain ⟨r0, hr0, hpr⟩ := markAllSynced_primary _ row hrow
      obtain ⟨c, hc, hcp⟩ := hstore1 r0 hr0
      exact ⟨c, hc, hpr.trans hcp⟩

theorem claim_category_closure_witness :
    normalize_primary "Transport" = (find_closest_category "Transport").getD "Other" ∧
    normalize_primary "Transport" = "Transportation" ∧
    ∃ r, fetch_and_process_transactions exOracle true true [] [txA] true = Except.ok r ∧
      ∀ row ∈ r.store, ∃ c ∈ CATEGORIES, row.primary_category = Val.str c := by
  refine ⟨claim_category_closure.2.1 "Transport" (by decide), by decide, _, rfl, ?_⟩
  exact claim_category_closure.2.2.2 exOracle true true [] [txA] true _
    (fun row h => absurd h (List.not_mem_nil row)) rfl

/-- C10: `categorize_batch` returns one output dict per input dict, in
order; output `i` is input `i` merged with the categorization dict, so it
carries every key of the input plus `primary_category`, `subcategory` and
`confidence`, the categorization values overwriting any same-named input
keys. -/
theorem claim_batch_shape (oracle : Dict → ClassifierOutcome) (txs : List Dict) :
    (categorize_batch oracle txs).length = txs.length ∧
    ∀ (i : ℕ) (din dout : Dict), txs[i]? = some din →
      (categorize_batch oracle txs)[i]? = some dout →
      (∀ k, Dict.get? dout k =
        (Dict.get? (catDict (categorize_transaction oracle din)) k).or (Dict.get? din k)) ∧
      Dict.get? dout "primary_category" =
        some (Val.str (categorize_transaction oracle din).primary_category) ∧
      Dict.get? dout "subcategory" =
        some (Val.str (categorize_transaction oracle din).subcategory) ∧
      Dict.get? dout "confidence" =
        some (Val.num (categorize_transaction oracle din).confidence) ∧
      (∀ k, (Dict.get? din k).isSome → (Dict.get? dout k).isSome) := by
  constructor
  · exact List.length_map txs _
  · intro i din dout hin hout
    rw [categorize_batch, List.getElem?_map, hin] at hout
    obtain rfl := (Option.some.inj hout).symm
    refine ⟨fun k => Dict.get?_mergeRight din _ k, get?_merge_catDict_primary din _,
      get?_merge_catDict_subcategory din _, get?_merge_catDict_confidence din _, ?_⟩
    intro k hk
    rw [Dict.get?_mergeRight]
    cases Dict.get? (catDict (categorize_transaction oracle din)) k with
    | some v => rfl
    | none => simpa using hk

theorem claim_batch_shape_witness :
    (categorize_batch exOracle [txA]).length = 1 ∧
    ∃ dout, (categorize_batch exOracle [txA])[0]? = some dout ∧
      Dict.get? dout "primary_category" = some (Val.str "Food & Dining") ∧
      Dict.get? dout "confidence" = some (Val.num (9 / 10)) ∧
      Dict.get? dout "name" = some (Val.str "Coffee") := by
  have h := claim_batch_shape exOracle [txA]
  refine ⟨h.1, _, rfl, ?_⟩
  have h2 := h.2 0 txA _ rfl rfl
  exact ⟨h2.2.1, h2.2.2.2.1, by decide⟩

/-- After a completed run over a feed of well-formed transactions, every
fetched `transaction_id` is present among the stored ids. -/
theorem run_covers_feed_ids (oracle : Dict → ClassifierOutcome) (configured apiOk : Bool)
    (store0 : List StoredTx) (transactions : List Dict) (s : Bool) (r : RunResult)
    (hkeys : ∀ tx ∈ transactions, requiredKeys tx)
    (h : fetch_and_process_transactions oracle configured apiOk store0 transactions s =
      Except.ok r) :
    ∀ tx ∈ transactions,
      ((Dict.get? tx "transaction_id").getD Val.nil) ∈ r.store.map (·.transaction_id) := by
  intro tx htx
  by_cases hemp : transactions = []
  · subst hemp
    exact absurd htx (List.not_mem_nil tx)
  · have hids : ∀ tx ∈ transactions, (Dict.get? tx "transaction_id").isSome :=
      fun tx h => (hkeys tx h).1
    by_cases hnew : newTransactions store0 transactions = []
    · rw [run_no_new oracle configured apiOk store0 transactions s hemp hids hnew] at h
      obtain rfl := (Except.ok.inj h).symm
      have hpred := List.filter_eq_nil_iff.mp hnew tx htx
      simpa using hpred
    · by_cases huniq : insertsUnique store0 ((categorize_batch oracle
          (newTransactions store0 transactions)).filterMap buildRow)
      swap
      · rw [run_commit_error oracle configured apiOk store0 transactions s hids hnew
          huniq] at h
        exact absurd h (by simp)
      rw [run_full oracle configured apiOk store0 transactions s hids hnew huniq] at h
      obtain rfl := (Except.ok.inj h).symm
      simp only
      rw [syncStep_store_ids, List.map_append]
      by_cases hmem : tx ∈ newTransactions store0 transactions
      · refine List.mem_append_right _ ?_
        have hmerged : Dict.mergeRight tx
            (catDict (categorize_transaction oracle tx)) ∈
              categorize_batch oracle (newTransactions store0 transactions) :=
          List.mem_map_of_mem _ hmem
        have hreq : requiredKeys (Dict.mergeRight tx
            (catDict (categorize_transaction oracle tx))) :=
          requiredKeys_merge tx _ (hkeys tx htx)
        obtain ⟨row, hrow, hid, _, _⟩ := buildRow_some_of_required _ hreq
        have hidtx : Dict.get? (Dict.mergeRight tx
            (catDict (categorize_transaction oracle tx))) "transaction_id" =
              Dict.get? tx "transaction_id" :=
          get?_merge_catDict_other tx _ _ (by decide) (by decide) (by decide)
        rw [hidtx] at hid
        have hmemrow : row ∈ (categorize_batch oracle
            (newTransactions store0 transactions)).filterMap buildRow :=
          List.mem_filterMap.mpr ⟨_, hmerged, hrow⟩
        have : (Dict.get? tx "transaction_id").getD Val.nil = row.transaction_id := by
          rw [hid]
          rfl
        rw [this]
        exact List.mem_map_of_mem _ hmemrow
      · refine List.mem_append_left _ ?_
        have hpred : ¬ ((fun tx => !((store0.map (·.transaction_id)).contains
            ((Dict.get? tx "transaction_id").getD Val.nil))) tx = true) := by
          intro hp
          exact hmem (List.mem_filter.mpr ⟨htx, hp⟩)
        simpa using hpred

theorem filterMap_sublist_map {A B : Type} (f : A → B) (g : A → Option B) (l : List A)
    (h : ∀ x ∈ l, g x = none ∨ g x = some (f x)) :
    (l.filterMap g).Sublist (l.map f) := by
  induction l with
  | nil => simp
  | cons a l ih =>
      have ht := ih (fun x hx => h x (List.mem_cons_of_mem a hx))
      rcases h a (List.mem_cons_self a l) with ha | ha
      · rw [List.filterMap_cons, ha, List.map_cons]
        exact ht.cons (f a)
      · rw [List.filterMap_cons, ha, List.map_cons]
        exact ht.cons₂ (f a)

/-- The ids of the rows the step-4 loop builds form a sublist of the ids of
the new transactions they come from. -/
theorem inserted_ids_sublist (oracle : Dict → ClassifierOutcome)
    (store0 : List StoredTx) (transactions : List Dict) :
    (((categorize_batch oracle (newTransactions store0 transactions)).filterMap
      buildRow).map (·.transaction_id)).Sublist
      ((newTransactions store0 transactions).map
        (fun tx => (Dict.get? tx "transaction_id").getD Val.nil)) := by
  rw [categorize_batch, List.filterMap_map, List.map_filterMap]
  apply filterMap_sublist_map
  intro tx _
  cases hb : buildRow (Dict.mergeRight tx (catDict (categorize_transaction oracle tx))) with
  | none => exact Or.inl (by simp [Function.comp, hb])
  | some row =>
      refine Or.inr ?_
      obtain ⟨hid, _, _⟩ := buildRow_fields _ row hb
      rw [get?_merge_catDict_other tx _ _ (by decide) (by decide) (by decide)] at hid
      simp [Function.comp, hb, hid]

/-- When the fetched ids are pairwise distinct — the feed contract: the
spec calls `transaction_id` globally unique and `plaid_client` forwards the
Plaid ids — the step-4 batch cannot violate the uniqueness constraint:
its rows carry distinct ids (a sublist of the feed ids), and the dedup
filter already excluded every id present in the store. -/
theorem insertsUnique_of_feed_nodup (oracle : Dict → ClassifierOutcome)
    (store0 : List StoredTx) (transactions : List Dict)
    (hnodup : (transactions.map
      (fun tx => (Dict.get? tx "transaction_id").getD Val.nil)).Nodup) :
    insertsUnique store0 ((categorize_batch oracle
      (newTransactions store0 transactions)).filterMap buildRow) := by
  constructor
  · have h1 := inserted_ids_sublist oracle store0 transactions
    have h2 : ((newTransactions store0 transactions).map
        (fun tx => (Dict.get? tx "transaction_id").getD Val.nil)).Sublist
        (transactions.map (fun tx => (Dict.get? tx "transaction_id").getD Val.nil)) := by
      simp only [newTransactions]
      exact List.Sublist.map _ (List.filter_sublist transactions)
    exact List.Nodup.sublist (h1.trans h2) hnodup
  · intro row hrow hmem
    obtain ⟨d, hd, hb⟩ := List.mem_filterMap.mp hrow
    obtain ⟨tx, htx, rfl⟩ := List.mem_map.mp hd
    obtain ⟨hid, _, _⟩ := buildRow_fields _ row hb
    rw [get?_merge_catDict_other tx _ _ (by decide) (by decide) (by decide)] at hid
    simp only [newTransactions] at htx
    have hpred := (List.mem_filter.mp htx).2
    rw [hid] at hpred
    simp only [Option.getD_some] at hpred
    have hcontains : ((store0.map (·.transaction_id)).contains row.transaction_id) = true := by
      simpa using hmem
    rw [hcontains] at hpred
    simp at hpred

/-- C2: running the pipeline again over the store left by a completed run,
with the same feed response, finds every fetched id already stored, reports
`new_transactions = 0` and leaves the store untouched. -/
theorem claim_dedup_idempotence (oracle : Dict → ClassifierOutcome)
    (configured apiOk : Bool) (store0 : List StoredTx) (transactions : List Dict)
    (s s2 : Bool) (r1 : RunResult)
    (hkeys : ∀ tx ∈ transactions, requiredKeys tx)
    (h1 : fetch_and_process_transactions oracle configured apiOk store0 transactions s =
      Except.ok r1) :
    ∃ r2, fetch_and_process_transactions oracle configured apiOk r1.store transactions s2 =
        Except.ok r2 ∧
      r2.stats.new_transactions = 0 ∧ r2.store = r1.store := by
  by_cases hemp : transactions = []
  · subst hemp
    exact ⟨_, run_empty_feed oracle configured apiOk r1.store s2, rfl, rfl⟩
  · have hids : ∀ tx ∈ transactions, (Dict.get? tx "transaction_id").isSome :=
      fun tx h => (hkeys tx h).1
    have hcov := run_covers_feed_ids oracle configured apiOk store0 transactions s r1
      hkeys h1
    have hnew2 : newTransactions r1.store transactions = [] := by
      apply List.filter_eq_nil_iff.mpr
      intro tx htx
      have := hcov tx htx
      simpa using this
    exact ⟨_, run_no_new oracle configured apiOk r1.store transactions s2 hemp hids hnew2,
      rfl, rfl⟩

theorem claim_dedup_idempotence_witness :
    ∃ r1 r2,
      fetch_and_process_transactions exOracle true true [] [txA, txB] true =
        Except.ok r1 ∧
      fetch_and_process_transactions exOracle true true r1.store [txA, txB] true =
        Except.ok r2 ∧
      r2.stats.new_transactions = 0 ∧ r2.store = r1.store := by
  have h1 := run_full exOracle true true [] [txA, txB] true (by decide) (by decide)
    (by decide)
  obtain ⟨r2, h2, hz, hs⟩ := claim_dedup_idempotence exOracle true true [] [txA, txB]
    true true _ (by decide) h1
  exact ⟨_, r2, h1, h2, hz, hs⟩

/-- The half of the per-row resilience that the code does deliver: when the
step-4 *row construction* fails for exactly one of the N categorized
transactions (the per-row `try` catches it) and the batch commit satisfies
the uniqueness constraint, the run completes, still reports
`categorized = N`, and persists the other N−1 rows. -/
theorem construction_failure_rows_skipped (oracle : Dict → ClassifierOutcome)
    (configured apiOk : Bool) (store0 : List StoredTx) (transactions : List Dict)
    (pre post : List Dict) (bad : Dict)
    (hids : ∀ tx ∈ transactions, (Dict.get? tx "transaction_id").isSome)
    (hsplit : categorize_batch oracle (newTransactions store0 transactions) =
      pre ++ bad :: post)
    (hbad : buildRow bad = none)
    (hgood : ∀ tx ∈ pre ++ post, (buildRow tx).isSome)
    (huniq : insertsUnique store0 ((categorize_batch oracle
      (newTransactions store0 transactions)).filterMap buildRow)) :
    ∃ r, fetch_and_process_transactions oracle configured apiOk store0 transactions false =
        Except.ok r ∧
      r.stats.categorized = pre.length + 1 + post.length ∧
      r.store = store0 ++ (pre ++ post).filterMap buildRow ∧
      r.store.length = store0.length + (pre.length + post.length) := by
  have hnew : newTransactions store0 transactions ≠ [] := by
    intro h
    rw [h] at hsplit
    simp [categorize_batch] at hsplit
  have hrun := run_full oracle configured apiOk store0 transactions false hids hnew huniq
  rw [syncStep_sync_off] at hrun
  refine ⟨_, hrun, ?_, ?_, ?_⟩
  · simp only
    rw [hsplit]
    simp [List.length_append]
    omega
  · simp only
    rw [hsplit, List.filterMap_append, List.filterMap_cons, hbad, List.filterMap_append]
  · simp only
    rw [hsplit, List.filterMap_append, List.filterMap_cons, hbad]
    have hpre : (pre.filterMap buildRow).length = pre.length :=
      length_filterMap_all_some buildRow pre
        (fun tx htx => hgood tx (List.mem_append_left post htx))
    have hpost : (post.filterMap buildRow).length = post.length :=
      length_filterMap_all_some buildRow post
        (fun tx htx => hgood tx (List.mem_append_right pre htx))
    simp [List.length_append, hpre, hpost]

theorem construction_failure_rows_skipped_example :
    ∃ r, fetch_and_process_transactions exOracle true true []
        [txA, txNoAccount, txB] false = Except.ok r ∧
      r.stats.categorized = 3 ∧ r.store.length = 2 := by
  obtain ⟨r, hr, hcat, _, hlen⟩ := construction_failure_rows_skipped exOracle true true []
    [txA, txNoAccount, txB]
    [Dict.mergeRight txA (catDict (categorize_transaction exOracle txA))]
    [Dict.mergeRight txB (catDict (categorize_transaction exOracle txB))]
    (Dict.mergeRight txNoAccount (catDict (categorize_transaction exOracle txNoAccount)))
    (by decide) rfl (by decide) (by decide) (by decide)
  exact ⟨r, hr, hcat.trans (by norm_num), hlen.trans (by norm_num)⟩

/-- C6 at the failing input the spec itself names (a duplicate-id insert
failure): two well-formed fetched transactions share one `transaction_id`,
both pass dedup (N = 2) and both rows construct, so the per-row `try`
catches nothing — the failure surfaces at the single `db.commit()`
(main.py line 136), which sits outside any `except`, so the run raises with
*nothing* stored instead of storing the other N−1 rows and reporting
`categorized = N` without raising. -/
theorem claim_partial_persistence_bug :
    fetch_and_process_transactions (fun _ => ClassifierOutcome.error) true true []
        [txD, txD2] false = Except.error () ∧
    (∀ tx ∈ ([txD, txD2] : List Dict), requiredKeys tx) ∧
    newTransactions [] [txD, txD2] = [txD, txD2] ∧
    (∀ d ∈ categorize_batch (fun _ => ClassifierOutcome.error)
      (newTransactions [] [txD, txD2]), (buildRow d).isSome) := by
  refine ⟨?_, by decide, by decide, by decide⟩
  rfl

/-- C7: with sync enabled, a configured spreadsheet and a successful Sheets
round-trip, a run over a feed of pairwise-distinct ids (the feed contract)
that categorized something pushes *every* unsynced stored row — including
rows persisted by earlier runs — as one snapshot, and reports
`synced_to_sheets` equal to the number of those rows (which can therefore
exceed `new_transactions`). -/
theorem claim_sync_all_unsynced (oracle : Dict → ClassifierOutcome)
    (store0 : List StoredTx) (transactions : List Dict)
    (hids : ∀ tx ∈ transactions, (Dict.get? tx "transaction_id").isSome)
    (hnodup : (transactions.map
      (fun tx => (Dict.get? tx "transaction_id").getD Val.nil)).Nodup)
    (hnew : newTransactions store0 transactions ≠ [])
    (huns : (store0 ++ (categorize_batch oracle
        (newTransactions store0 transactions)).filterMap buildRow).filter
          (fun row => !row.synced_to_sheets) ≠ []) :
    ∃ r, fetch_and_process_transactions oracle true true store0 transactions true =
        Except.ok r ∧
      r.pushedRows = some (((store0 ++ (categorize_batch oracle
        (newTransactions store0 transactions)).filterMap buildRow).filter
          (fun row => !row.synced_to_sheets)).map sheetRow) ∧
      r.stats.synced_to_sheets = ((store0 ++ (categorize_batch oracle
        (newTransactions store0 transactions)).filterMap buildRow).filter
          (fun row => !row.synced_to_sheets)).length := by
  have hrun := run_full oracle true true store0 transactions true hids hnew
    (insertsUnique_of_feed_nodup oracle store0 transactions hnodup)
  have hcatne : (categorize_batch oracle
      (newTransactions store0 transactions)).isEmpty = false := by
    cases h : newTransactions store0 transactions with
    | nil => exact absurd h hnew
    | cons a l => rfl
  have hunsne : ((store0 ++ (categorize_batch oracle
      (newTransactions store0 transactions)).filterMap buildRow).filter
        (fun row => !row.synced_to_sheets)).isEmpty = false := by
    cases h : (store0 ++ (categorize_batch oracle
        (newTransactions store0 transactions)).filterMap buildRow).filter
          (fun row => !row.synced_to_sheets) with
    | nil => exact absurd h huns
    | cons a l => rfl
  have hsync : syncStep true true true
      (categorize_batch oracle (newTransactions store0 transactions))
      (store0 ++ (categorize_batch oracle
        (newTransactions store0 transactions)).filterMap buildRow) =
      (markAllSynced (store0 ++ (categorize_batch oracle
        (newTransactions store0 transactions)).filterMap buildRow),
       ((store0 ++ (categorize_batch oracle
        (newTransactions store0 transactions)).filterMap buildRow).filter
          (fun row => !row.synced_to_sheets)).length,
       some (((store0 ++ (categorize_batch oracle
        (newTransactions store0 transactions)).filterMap buildRow).filter
          (fun row => !row.synced_to_sheets)).map sheetRow)) := by
    have hc1 : (true && !(categorize_batch oracle
        (newTransactions store0 transactions)).isEmpty) = true := by
      rw [hcatne]; rfl
    have hc2 : ¬ ((((store0 ++ (categorize_batch oracle
        (newTransactions store0 transactions)).filterMap buildRow).filter
          (fun row => !row.synced_to_sheets)).isEmpty) = true) := by
      rw [hunsne]; exact Bool.false_ne_true
    unfold syncStep
    rw [if_pos hc1, if_neg hc2]
    rfl
  rw [hsync] at hrun
  exact ⟨_, hrun, rfl, rfl⟩

theorem claim_sync_all_unsynced_witness :
    ∃ r, fetch_and_process_transactions exOracle true true [priorRow] [txA] true =
        Except.ok r ∧
      r.stats.new_transactions = 1 ∧
      r.stats.synced_to_sheets = 2 ∧
      r.stats.new_transactions < r.stats.synced_to_sheets ∧
      (r.pushedRows.getD []).map (·.transaction_id) = [Val.str "t0", Val.str "t1"] := by
  obtain ⟨r, hr, hpush, hcount⟩ := claim_sync_all_unsynced exOracle [priorRow] [txA]
    (by decide) (by decide) (by decide) (by decide)
  rw [run_full exOracle true true [priorRow] [txA] true (by decide) (by decide)
    (by decide)] at hr
  obtain rfl := (Except.ok.inj hr).symm
  refine ⟨_, run_full exOracle true true [priorRow] [txA] true (by decide) (by decide)
    (by decide), rfl, ?_, ?_, ?_⟩
  · exact hcount.trans (by rfl)
  · rw [hcount.trans (by rfl)]
    decide
  · rw [hpush]
    rfl

/-- C8: a run over a feed of pairwise-distinct ids that categorizes N new
transactions reports `categorized = N` and `average_confidence` equal to
the arithmetic mean of the N categorization confidences — fallback results
contributing their `0.0` to the mean and counting toward N. -/
theorem claim_average_confidence (oracle : Dict → ClassifierOutcome)
    (configured apiOk : Bool) (store0 : List StoredTx) (transactions : List Dict)
    (s : Bool)
    (hids : ∀ tx ∈ transactions, (Dict.get? tx "transaction_id").isSome)
    (hnodup : (transactions.map
      (fun tx => (Dict.get? tx "transaction_id").getD Val.nil)).Nodup)
    (hnew : newTransactions store0 transactions ≠ []) :
    ∃ r, fetch_and_process_transactions oracle configured apiOk store0 transactions s =
        Except.ok r ∧
      r.stats.categorized = (newTransactions store0 transactions).length ∧
      r.stats.average_confidence = some
        (((newTransactions store0 transactions).map
          (fun tx => (categorize_transaction oracle tx).confidence)).sum /
          ((newTransactions store0 transactions).length : ℚ)) := by
  have hrun := run_full oracle configured apiOk store0 transactions s hids hnew
    (insertsUnique_of_feed_nodup oracle store0 transactions hnodup)
  have hmap : (categorize_batch oracle (newTransactions store0 transactions)).map
      getConfidence = (newTransactions store0 transactions).map
        (fun tx => (categorize_transaction oracle tx).confidence) := by
    rw [categorize_batch, List.map_map]
    exact List.map_congr_left (fun tx _ => getConfidence_merge tx _)
  have hlen : (categorize_batch oracle
      (newTransactions store0 transactions)).length =
        (newTransactions store0 transactions).length :=
    List.length_map _ _
  refine ⟨_, hrun, ?_, ?_⟩
  · simp only
    exact hlen
  · simp only
    rw [hmap, hlen]

theorem claim_average_confidence_witness :
    ∃ r, fetch_and_process_transactions exOracle true true [] [txA, txB, txC] false =
        Except.ok r ∧
      r.stats.categorized = 3 ∧
      exOracle txC = ClassifierOutcome.error ∧
      (categorize_transaction exOracle txC).confidence = 0 ∧
      r.stats.average_confidence = some (1 / 2) := by
  obtain ⟨r, hr, hcat, havg⟩ := claim_average_confidence exOracle true true []
    [txA, txB, txC] false (by decide) (by decide) (by decide)
  refine ⟨r, hr, hcat.trans (by rfl), rfl, rfl, ?_⟩
  rw [havg]
  congr 1
  show ((9 : ℚ) / 10 + (3 / 5 + (0 + 0))) / (3 : ℚ) = 1 / 2
  norm_num

/-- C9 counterexample: a feed of zero transactions makes the run return the
short-circuit statistics dict, which carries the four zero counts but does
*not* contain `average_confidence` or `categories_used`; so not every
completed run returns a record with all six fields. -/
theorem claim_stats_fields_cex :
    ∃ r, fetch_and_process_transactions (fun _ => ClassifierOutcome.error) true true []
        [] true = Except.ok r ∧
      r.stats.average_confidence = none ∧ r.stats.categories_used = none ∧
      r.stats.total_fetched = 0 ∧ r.stats.new_transactions = 0 ∧
      r.stats.categorized = 0 ∧ r.stats.synced_to_sheets = 0 :=
  ⟨_, rfl, rfl, rfl, rfl, rfl, rfl, rfl⟩

/-- C9 (amended): a run over a well-formed feed (ids present and pairwise
distinct) that processes at least one new transaction returns a statistics
record with all six fields (`average_confidence` and `categories_used`
included); the short-circuit paths return only the four counts, and in
particular an empty feed yields `{total_fetched: 0, new_transactions: 0,
categorized: 0, synced_to_sheets: 0}` with the other two fields absent. -/
theorem claim_stats_fields_amended :
    (∀ oracle configured apiOk store0 transactions s,
      (∀ tx ∈ transactions, (Dict.get? tx "transaction_id").isSome) →
      (transactions.map (fun tx => (Dict.get? tx "transaction_id").getD Val.nil)).Nodup →
      newTransactions store0 transactions ≠ [] →
      ∃ r, fetch_and_process_transactions oracle configured apiOk store0 transactions s =
          Except.ok r ∧
        r.stats.average_confidence.isSome ∧ r.stats.categories_used.isSome ∧
        r.stats.total_fetched = transactions.length ∧
        r.stats.new_transactions = (newTransactions store0 transactions).length) ∧
    (∀ oracle configured apiOk store0 s,
      fetch_and_process_transactions oracle configured apiOk store0 [] s =
        Except.ok
          { stats := { total_fetched := 0, new_transactions := 0, categorized := 0,
                       average_confidence := none, synced_to_sheets := 0,
                       categories_used := none },
            store := store0, pushedRows := none }) := by
  constructor
  · intro oracle configured apiOk store0 transactions s hids hnodup hnew
    exact ⟨_, run_full oracle configured apiOk store0 transactions s hids hnew
      (insertsUnique_of_feed_nodup oracle store0 transactions hnodup),
      rfl, rfl, rfl, rfl⟩
  · intro oracle configured apiOk store0 s
    exact run_empty_feed oracle configured apiOk store0 s

theorem claim_stats_fields_amended_witness :
    ∃ r, fetch_and_process_transactions exOracle true true [] [txA] true =
        Except.ok r ∧
      r.stats.average_confidence.isSome ∧ r.stats.categories_used.isSome ∧
      r.stats.total_fetched = 1 ∧ r.stats.new_transactions = 1 := by
  obtain ⟨r, hr, h1, h2, h3, h4⟩ := claim_stats_fields_amended.1 exOracle true true []
    [txA] true (by decide) (by decide) (by decide)
  exact ⟨r, hr, h1, h2, h3.trans (by rfl), h4.trans (by rfl)⟩

/-- C4 at the failing configuration: with sync enabled but no spreadsheet id
configured, `sync_transactions` skips the push entirely (transmits
nothing), yet the pipeline still flips the freshly stored row to
`synced_to_sheets = true` and reports `synced_to_sheets = 1` — a row is
marked synced although its data never appeared in any mirror push. -/
theorem claim_sync_monotonicity_bug :
    ∃ r, fetch_and_process_transactions (fun _ => ClassifierOutcome.error) false true []
        [txA] true = Except.ok r ∧
      r.pushedRows = none ∧
      r.stats.synced_to_sheets = 1 ∧
      r.store.map (·.synced_to_sheets) = [true] ∧
      r.store.map (·.transaction_id) = [Val.str "t1"] :=
  ⟨_, rfl, rfl, rfl, rfl, rfl⟩

end SpendSmart
